import Mathlib

/-!
Verification of the banking-transaction ETL core (validator / cleaner /
transformer modules) against its specification.

The per-record pipeline is shallowly embedded:

* Python values occurring in a record are modelled by `Value`
  (strings, numbers as exact rationals, booleans, `None`, and calendar
  dates); a record (Python `dict`) is an association list with the
  `dict` update discipline (`dict_set` replaces in place, else appends).
* Python string operations `strip` / `upper` are modelled over the
  ASCII fragment (`pyStrip`, `pyUpper`).
* `float(·)` is modelled by `pyFloat`, an exact-rational reading of the
  decimal/scientific forms accepted by Python (non-finite values such as
  `nan`/`inf` are outside the rational model).
* the two accepted `strptime` formats `%Y-%m-%d` and `%d/%m/%Y` are
  modelled by `parseYMD` / `parseDMY`, including the digit-count and
  calendar-validity rules of `datetime.strptime` (four-digit year,
  one-or-two-digit month and day, leap-year awareness);
  `strftime('%Y-%m-%d')` is modelled zero-padded by `fmtYMD`.
* raising code is modelled in `Except PyErr`; `math.log` is an abstract
  parameter (its argument is guarded to be strictly positive).
-/

/-- ASCII whitespace removed by the model of Python `str.strip`. -/
def isPyWs (c : Char) : Bool :=
  c = ' ' || c = '\t' || c = '\n' || c = '\r' || c = '\x0b' || c = '\x0c'

/-- Strip leading and trailing whitespace from a character list. -/
def stripChars (cs : List Char) : List Char :=
  ((cs.dropWhile isPyWs).reverse.dropWhile isPyWs).reverse

/-- Model of Python `str.strip()`. -/
def pyStrip (s : String) : String := String.mk (stripChars s.data)

/-- Model of Python `str.upper()` on one character (ASCII fragment). -/
def pyCharUp (c : Char) : Char :=
  match c with
  | 'a' => 'A' | 'b' => 'B' | 'c' => 'C' | 'd' => 'D' | 'e' => 'E'
  | 'f' => 'F' | 'g' => 'G' | 'h' => 'H' | 'i' => 'I' | 'j' => 'J'
  | 'k' => 'K' | 'l' => 'L' | 'm' => 'M' | 'n' => 'N' | 'o' => 'O'
  | 'p' => 'P' | 'q' => 'Q' | 'r' => 'R' | 's' => 'S' | 't' => 'T'
  | 'u' => 'U' | 'v' => 'V' | 'w' => 'W' | 'x' => 'X' | 'y' => 'Y'
  | 'z' => 'Z'
  | c => c

/-- Model of Python `str.upper()`. -/
def pyUpper (s : String) : String := String.mk (s.data.map pyCharUp)

/-- Numeric value of a list of decimal digit characters. -/
def natOfDigits (cs : List Char) : Nat :=
  cs.foldl (fun a c => a * 10 + (c.toNat - 48)) 0

/-- The decimal digit character for `n % 10`. -/
def digitChar (n : Nat) : Char :=
  match n % 10 with
  | 0 => '0' | 1 => '1' | 2 => '2' | 3 => '3' | 4 => '4'
  | 5 => '5' | 6 => '6' | 7 => '7' | 8 => '8' | _ => '9'

/-- A proleptic-Gregorian calendar date, as in Python `datetime.date`. -/
structure PyDate where
  year : Nat
  month : Nat
  day : Nat
deriving DecidableEq

/-- Gregorian leap-year rule. -/
def isLeapYear (y : Nat) : Bool :=
  y % 4 = 0 && (y % 100 ≠ 0 || y % 400 = 0)

/-- Number of days in month `m` of year `y`. -/
def daysInMonth (y m : Nat) : Nat :=
  if m = 2 then (if isLeapYear y then 29 else 28)
  else if m = 4 || m = 6 || m = 9 || m = 11 then 30
  else 31

/-- The range check done by the `datetime` constructor. -/
def dateOkB (y m d : Nat) : Bool :=
  1 ≤ y && y ≤ 9999 && 1 ≤ m && m ≤ 12 && 1 ≤ d && d ≤ daysInMonth y m

/-- `datetime(y, m, d)`: the date if the ranges are valid, else a raise
(modelled as `none`, always caught at the call sites). -/
def mkDate (y m d : Nat) : Option PyDate :=
  if dateOkB y m d then some ⟨y, m, d⟩ else none

/-- `strptime` month field `%m` on a two-character chunk:
regex `1[0-2]|0[1-9]`. -/
def monthVal2 (c1 c2 : Char) : Option Nat :=
  if c1 = '1' && (c2 = '0' || c2 = '1' || c2 = '2') then some (10 + (c2.toNat - 48))
  else if c1 = '0' && ('1' ≤ c2 && c2 ≤ '9') then some (c2.toNat - 48)
  else none

/-- `strptime` month field `%m` on a single character: regex `[1-9]`. -/
def monthVal1 (c : Char) : Option Nat :=
  if '1' ≤ c && c ≤ '9' then some (c.toNat - 48) else none

/-- `strptime` day field `%d`, anchored: regex
`3[01]|[1-2]\d|0[1-9]|[1-9]| [1-9]` matching the whole chunk. -/
def dayVal (cs : List Char) : Option Nat :=
  match cs with
  | [c] => if '1' ≤ c && c ≤ '9' then some (c.toNat - 48) else none
  | [c1, c2] =>
    if c1 = '3' && (c2 = '0' || c2 = '1') then some (30 + (c2.toNat - 48))
    else if ('1' ≤ c1 && c1 ≤ '2') && c2.isDigit then
      some ((c1.toNat - 48) * 10 + (c2.toNat - 48))
    else if c1 = '0' && ('1' ≤ c2 && c2 ≤ '9') then some (c2.toNat - 48)
    else if c1 = ' ' && ('1' ≤ c2 && c2 ≤ '9') then some (c2.toNat - 48)
    else none
  | _ => none

/-- `strptime(s, '%Y-%m-%d')` after a one-character month was matched. -/
def parseYMD1 (y : Nat) (rest : List Char) : Option PyDate :=
  match rest with
  | m1 :: '-' :: ds =>
    match monthVal1 m1, dayVal ds with
    | some m, some d => mkDate y m d
    | _, _ => none
  | _ => none

/-- `strptime(s, '%Y-%m-%d')`: four-digit year, dash, month, dash, day,
with the regex backtracking from a two-character month to a
one-character month when the tail fails to match. -/
def parseYMD (cs : List Char) : Option PyDate :=
  match cs with
  | y1 :: y2 :: y3 :: y4 :: '-' :: rest =>
    if y1.isDigit && y2.isDigit && y3.isDigit && y4.isDigit then
      let y := natOfDigits [y1, y2, y3, y4]
      match rest with
      | m1 :: m2 :: '-' :: ds =>
        (match monthVal2 m1 m2, dayVal ds with
         | some m, some d => mkDate y m d
         | _, _ => parseYMD1 y rest)
      | _ => parseYMD1 y rest
    else none
  | _ => none

/-- `strptime(s, '%d/%m/%Y')`: the trailing four-digit year. -/
def yearTail (d m : Nat) (cs : List Char) : Option PyDate :=
  match cs with
  | [y1, y2, y3, y4] =>
    if y1.isDigit && y2.isDigit && y3.isDigit && y4.isDigit then
      mkDate (natOfDigits [y1, y2, y3, y4]) m d
    else none
  | _ => none

/-- `strptime(s, '%d/%m/%Y')` after the day, one-character month case. -/
def monthTail1 (d : Nat) (cs : List Char) : Option PyDate :=
  match cs with
  | m1 :: '/' :: ys =>
    match monthVal1 m1 with
    | some m => yearTail d m ys
    | none => none
  | _ => none

/-- `strptime(s, '%d/%m/%Y')` after the day was matched. -/
def monthTail (d : Nat) (cs : List Char) : Option PyDate :=
  match cs with
  | m1 :: m2 :: '/' :: ys =>
    (match monthVal2 m1 m2 with
     | some m => yearTail d m ys
     | none => monthTail1 d (m1 :: m2 :: '/' :: ys))
  | cs => monthTail1 d cs

/-- `strptime(s, '%d/%m/%Y')` with a one-character day. -/
def parseDMY1 (cs : List Char) : Option PyDate :=
  match cs with
  | c1 :: '/' :: rest =>
    match dayVal [c1] with
    | some d => monthTail d rest
    | none => none
  | _ => none

/-- `strptime(s, '%d/%m/%Y')`: day, slash, month, slash, four-digit
year. -/
def parseDMY (cs : List Char) : Option PyDate :=
  match cs with
  | c1 :: c2 :: '/' :: rest =>
    (match dayVal [c1, c2] with
     | some d => monthTail d rest
     | none => parseDMY1 (c1 :: c2 :: '/' :: rest))
  | cs => parseDMY1 cs

/-- Two-digit zero-padded decimal rendering. -/
def pad2 (n : Nat) : List Char := [digitChar (n / 10), digitChar n]

/-- Four-digit zero-padded decimal rendering. -/
def pad4 (n : Nat) : List Char :=
  [digitChar (n / 1000), digitChar (n / 100), digitChar (n / 10), digitChar n]

/-- `strftime('%Y-%m-%d')`, zero padded, as a character list. -/
def fmtYMDChars (d : PyDate) : List Char :=
  pad4 d.year ++ '-' :: (pad2 d.month ++ '-' :: pad2 d.day)

/-- `strftime('%Y-%m-%d')` / `date.isoformat()`. -/
def fmtYMD (d : PyDate) : String := String.mk (fmtYMDChars d)

/-- Days in all years strictly before year `y` (proleptic Gregorian). -/
def daysBeforeYear (y : Nat) : Nat :=
  (y - 1) * 365 + (y - 1) / 4 - (y - 1) / 100 + (y - 1) / 400

/-- Days in year `y` strictly before month `m`. -/
def daysBeforeMonth (y m : Nat) : Nat :=
  ((List.range (m - 1)).map (fun k => daysInMonth y (k + 1))).sum

/-- `date.toordinal()`: day count with `0001-01-01` as day 1. -/
def toOrdinal (d : PyDate) : Nat :=
  daysBeforeYear d.year + daysBeforeMonth d.year d.month + d.day

/-- `date.weekday()`: Monday is `0`. -/
def weekdayIndex (d : PyDate) : Nat := (toOrdinal d + 6) % 7

/-- A Python value as it occurs in a transaction record. -/
inductive Value where
  | vStr (s : String)
  | vNum (q : ℚ)
  | vBool (b : Bool)
  | vNone
  | vDate (d : PyDate)
deriving DecidableEq

/-- Python truthiness of a `Value`. -/
def truthy : Value → Bool
  | .vStr s => s ≠ ""
  | .vNum q => q ≠ 0
  | .vBool b => b
  | .vNone => false
  | .vDate _ => true

/-- `isinstance(v, str)`. -/
def isStr : Value → Bool
  | .vStr _ => true
  | _ => false

/-- Rendering of a number by `str(·)`; stands in for the Python float
`repr` (no proof depends on the digits chosen). -/
def numRepr (q : ℚ) : String := toString q

/-- Model of Python `str(v)`. -/
def pyStr : Value → String
  | .vStr s => s
  | .vNum q => numRepr q
  | .vBool b => if b then "True" else "False"
  | .vNone => "None"
  | .vDate d => fmtYMD d

/-- Sign prefix of a Python float literal. -/
def parseSign : List Char → (Bool × List Char)
  | '+' :: cs => (false, cs)
  | '-' :: cs => (true, cs)
  | cs => (false, cs)

/-- Optional exponent suffix of a Python float literal, applied to the
mantissa. -/
def parseExpPart (neg : Bool) (mant : ℚ) (cs : List Char) : Option ℚ :=
  let signed : ℚ := if neg then -mant else mant
  match cs with
  | [] => some signed
  | e :: cs1 =>
    if e = 'e' || e = 'E' then
      let (eneg, cs2) := parseSign cs1
      let ed := cs2.takeWhile Char.isDigit
      if ed.isEmpty || !(cs2.dropWhile Char.isDigit).isEmpty then none
      else if eneg then some (signed / (10 : ℚ) ^ natOfDigits ed)
      else some (signed * (10 : ℚ) ^ natOfDigits ed)
    else none

/-- Model of Python `float(s)` on a string: optional surrounding
whitespace, optional sign, decimal digits with an optional point and an
optional exponent, read exactly as a rational. -/
def parseFloat (s : String) : Option ℚ :=
  let cs := stripChars s.data
  let (neg, cs) := parseSign cs
  let ip := cs.takeWhile Char.isDigit
  let cs1 := cs.dropWhile Char.isDigit
  match cs1 with
  | '.' :: cs2 =>
    let fp := cs2.takeWhile Char.isDigit
    let cs3 := cs2.dropWhile Char.isDigit
    if ip.isEmpty && fp.isEmpty then none
    else parseExpPart neg
      ((natOfDigits ip : ℚ) + (natOfDigits fp : ℚ) / (10 : ℚ) ^ fp.length) cs3
  | rest =>
    if ip.isEmpty then none else parseExpPart neg (natOfDigits ip : ℚ) rest

/-- Model of Python `float(v)`: `some` the exact value, `none` when the
conversion raises (`TypeError`/`ValueError`). -/
def pyFloat : Value → Option ℚ
  | .vStr s => parseFloat s
  | .vNum q => some q
  | .vBool b => some (if b then 1 else 0)
  | .vNone => none
  | .vDate _ => none

/-- A transaction record: a Python `dict` as an association list. -/
abbrev Record := List (String × Value)

/-- `d.get(k)` (default `None` handled at call sites via `Option`). -/
def dget (t : Record) (k : String) : Option Value := List.lookup k t

/-- `d.get(k, default)`. -/
def dgetD (t : Record) (k : String) (dflt : Value) : Value :=
  (List.lookup k t).getD dflt

/-- `d[k] = v`: replace in place if the key exists, else append. -/
def dict_set (t : Record) (k : String) (v : Value) : Record :=
  if t.any (fun p => p.1 == k) then
    t.map (fun p => if p.1 == k then (k, v) else p)
  else t ++ [(k, v)]

/-- The keys of a record, in order. -/
def rkeys (t : Record) : List String := t.map Prod.fst

/-- The exceptions the embedded code can raise. -/
inductive PyErr where
  | invalidTransactionID
  | invalidDateFormat
  | invalidAmount
  | invalidCurrency
  | typeError
  | attributeError
deriving DecidableEq

deriving instance DecidableEq for Except

/-! ## Cleaner (`src/etl/cleaner.py`) -/

/-- `trim_whitespace`: strip strings, pass anything else through. -/
def trim_whitespace (v : Value) : Value :=
  match v with
  | .vStr s => .vStr (pyStrip s)
  | v => v

/-- `normalize_date`: canonicalize to `YYYY-MM-DD` or `None`. -/
def normalize_date (v : Value) : Value :=
  if truthy v then
    let s := pyStrip (pyStr v)
    match parseYMD s.data with
    | some d => .vStr (fmtYMD d)
    | none =>
      match parseDMY s.data with
      | some d => .vStr (fmtYMD d)
      | none => .vNone
  else .vNone

/-- `normalize_currency`: trim+uppercase, `None` if unknown. -/
def normalize_currency (v : Value) : Value :=
  if truthy v then
    let c := pyUpper (pyStrip (pyStr v))
    if c = "IDR" || c = "USD" || c = "SGD" then .vStr c else .vNone
  else .vNone

/-- Is `v` a string that is empty after stripping? -/
def blankStr (v : Value) : Bool :=
  match v with
  | .vStr s => pyStrip s == ""
  | _ => false

/-- `clean_numeric`: float or `None`. -/
def clean_numeric (v : Value) : Value :=
  if v = .vNone || blankStr v then .vNone
  else
    match pyFloat v with
    | some q => .vNum q
    | none => .vNone

/-- `clean_merchant_category`: trimmed string, `"Unknown"` when blank. -/
def clean_merchant_category (v : Value) : Value :=
  if !truthy v || pyStrip (pyStr v) == "" then .vStr "Unknown"
  else .vStr (pyStrip (pyStr v))

/-- `.upper()` on a value: succeeds only on strings, otherwise raises
`AttributeError`. -/
def pyUpperV (v : Value) : Except PyErr Value :=
  match v with
  | .vStr s => .ok (.vStr (pyUpper s))
  | _ => .error .attributeError

/-- The cleaning rule `clean_transaction` applies to one field. -/
def cleanField (k : String) (v : Value) : Except PyErr Value :=
  if k = "transaction_id" || k = "customer_id" || k = "account_id" ||
     k = "channel" || k = "region" || k = "txn_type" then
    .ok (trim_whitespace v)
  else if k = "transaction_date" || k = "value_date" then
    .ok (normalize_date v)
  else if k = "currency" then
    .ok (normalize_currency v)
  else if k = "amount" || k = "risk_score" then
    .ok (clean_numeric v)
  else if k = "merchant_category" then
    .ok (clean_merchant_category v)
  else if k = "account_type" || k = "direction" then
    (if truthy v then pyUpperV (trim_whitespace v) else .ok v)
  else
    .ok (if isStr v then trim_whitespace v else v)

/-- `clean_transaction`: build the cleaned record field by field; an
uncaught exception in a field rule aborts the whole call. -/
def clean_transaction (t : Record) : Except PyErr Record :=
  match t with
  | [] => .ok []
  | (k, v) :: rest =>
    match cleanField k v, clean_transaction rest with
    | .error e, _ => .error e
    | .ok _, .error e => .error e
    | .ok w, .ok us => .ok ((k, w) :: us)

/-! ## Validator (`src/etl/validator.py`) -/

/-- Does the stripped id match the anchored regex `^TXN\d{7}$`? -/
def txnIdMatch (s : String) : Bool :=
  match s.data with
  | 'T' :: 'X' :: 'N' :: rest => rest.length == 7 && rest.all Char.isDigit
  | _ => false

/-- `validate_transaction_id`. -/
def validate_transaction_id (v : Value) : Except PyErr Unit :=
  match v with
  | .vStr s =>
    if s = "" then .error .invalidTransactionID
    else if txnIdMatch (pyStrip s) then .ok ()
    else .error .invalidTransactionID
  | _ => .error .invalidTransactionID

/-- `validate_date`. -/
def validate_date (v : Value) : Except PyErr Unit :=
  match v with
  | .vStr s =>
    if s = "" then .error .invalidDateFormat
    else if (parseYMD (pyStrip s).data).isSome ||
            (parseDMY (pyStrip s).data).isSome then .ok ()
    else .error .invalidDateFormat
  | _ => .error .invalidDateFormat

/-- `validate_amount`. -/
def validate_amount (v : Value) : Except PyErr Unit :=
  if v = .vNone || blankStr v then .error .invalidAmount
  else
    match pyFloat v with
    | none => .error .invalidAmount
    | some q => if q < 0 then .error .invalidAmount else .ok ()

/-- `validate_currency`. -/
def validate_currency (v : Value) : Except PyErr Unit :=
  match v with
  | .vStr s =>
    if s = "" then .error .invalidCurrency
    else
      let c := pyUpper (pyStrip s)
      if c = "IDR" || c = "USD" || c = "SGD" then .ok ()
      else .error .invalidCurrency
  | _ => .error .invalidCurrency

/-- `validate_direction` (warning only, never raises). -/
def validate_direction (v : Value) : Bool :=
  match v with
  | .vStr s =>
    if s ≠ "" then
      (let c := pyUpper (pyStrip s)
       if c = "DEBIT" || c = "CREDIT" then true else false)
    else true
  | _ => true

/-- `validate_account_type` (warning only, never raises). -/
def validate_account_type (v : Value) : Bool :=
  match v with
  | .vStr s =>
    if s ≠ "" then
      (let c := pyUpper (pyStrip s)
       if c = "SAVINGS" || c = "CURRENT" || c = "CREDIT_CARD" || c = "LOAN"
       then true else false)
    else true
  | _ => true

/-- `check_amount_anomaly`: `float(amount) > 10_000_000`; the
conversion can in principle raise. -/
def check_amount_anomaly (v : Value) : Except PyErr Bool :=
  match pyFloat v with
  | some q => .ok (decide (q > 10000000))
  | none => .error .typeError

/-- `validate_transaction`, with the state of the caller-visible dict
threaded explicitly: the result is `(outcome, dict after the call)`.
The four mandatory checks run in source order and raise before any
mutation; the two optional checks only warn; the single mutation sets
`amount_anomaly`. -/
def validate_transaction (t : Record) : Except PyErr Record × Record :=
  match validate_transaction_id (dgetD t "transaction_id" (.vStr "")) with
  | .error e => (.error e, t)
  | .ok _ =>
  match validate_date (dgetD t "transaction_date" (.vStr "")) with
  | .error e => (.error e, t)
  | .ok _ =>
  match validate_amount (dgetD t "amount" .vNone) with
  | .error e => (.error e, t)
  | .ok _ =>
  match validate_currency (dgetD t "currency" (.vStr "")) with
  | .error e => (.error e, t)
  | .ok _ =>
    let _ := validate_direction (dgetD t "direction" (.vStr ""))
    let _ := validate_account_type (dgetD t "account_type" (.vStr ""))
    match check_amount_anomaly (dgetD t "amount" (.vNum 0)) with
    | .error e => (.error e, t)
    | .ok b =>
      let t2 := dict_set t "amount_anomaly" (.vBool b)
      (.ok t2, t2)

/-! ## Transformer (`src/etl/transformer.py`) -/

/-- `convert_date_to_date_object`. -/
def convert_date_to_date_object (v : Value) : Option PyDate :=
  if truthy v then parseYMD (pyStrip (pyStr v)).data else none

/-- `convert_amount_to_float`. -/
def convert_amount_to_float (v : Value) : Option ℚ :=
  match v with
  | .vNone => none
  | v => pyFloat v

/-- `convert_risk_score_to_float`. -/
def convert_risk_score_to_float (v : Value) : Option ℚ :=
  if v = .vNone || blankStr v then none else pyFloat v

/-- `is_large_transaction`: `amount > 5_000_000` with `None` false. -/
def is_large_transaction (a : Option ℚ) : Bool :=
  match a with
  | none => false
  | some q => decide (q > 5000000)

/-- `is_crossborder_transaction`: falsy currency is false, otherwise
compare the trimmed+uppercased string form with `"IDR"`. -/
def is_crossborder_transaction (v : Value) : Bool :=
  if truthy v then decide (pyUpper (pyStrip (pyStr v)) ≠ "IDR") else false

/-- The weekday-name table of `get_transaction_day`. -/
def weekdayNames : List String :=
  ["Monday", "Tuesday", "Wednesday", "Thursday", "Friday", "Saturday", "Sunday"]

/-- `get_transaction_day`. -/
def get_transaction_day (d : Option PyDate) : Option String :=
  match d with
  | none => none
  | some d => some (weekdayNames.getD (weekdayIndex d) "")

/-- `calculate_amount_log`; `log` is the abstract model of `math.log`,
only ever applied to a strictly positive amount. -/
def calculate_amount_log (log : ℚ → ℚ) (a : Option ℚ) : Option ℚ :=
  match a with
  | none => none
  | some q => if q ≤ 0 then none else some (log q)

/-- Store an optional float back into the dict. -/
def vOfOptNum (o : Option ℚ) : Value :=
  match o with
  | some q => .vNum q
  | none => .vNone

/-- Store an optional date back into the dict. -/
def vOfOptDate (o : Option PyDate) : Value :=
  match o with
  | some d => .vDate d
  | none => .vNone

/-- Store an optional string back into the dict. -/
def vOfOptStr (o : Option String) : Value :=
  match o with
  | some s => .vStr s
  | none => .vNone

/-- `transform_transaction`: shallow copy, three in-place type
conversions, four derived features appended. -/
def transform_transaction (log : ℚ → ℚ) (t : Record) : Record :=
  let dateObj := convert_date_to_date_object (dgetD t "transaction_date" .vNone)
  let t1 := dict_set t "transaction_date" (vOfOptDate dateObj)
  let amountF := convert_amount_to_float (dgetD t1 "amount" .vNone)
  let t2 := dict_set t1 "amount" (vOfOptNum amountF)
  let riskF := convert_risk_score_to_float (dgetD t2 "risk_score" .vNone)
  let t3 := dict_set t2 "risk_score" (vOfOptNum riskF)
  let t4 := dict_set t3 "is_large_transaction" (.vBool (is_large_transaction amountF))
  let t5 := dict_set t4 "is_crossborder"
    (.vBool (is_crossborder_transaction (dgetD t4 "currency" (.vStr ""))))
  let t6 := dict_set t5 "transaction_day" (vOfOptStr (get_transaction_day dateObj))
  dict_set t6 "amount_log" (vOfOptNum (calculate_amount_log log amountF))

/-! ## Character and string lemmas -/

/-- The uppercase ASCII letters, the possible outputs of `pyCharUp` on
a lowercase letter. -/
def upperLetters : List Char :=
  ['A', 'B', 'C', 'D', 'E', 'F', 'G', 'H', 'I', 'J', 'K', 'L', 'M',
   'N', 'O', 'P', 'Q', 'R', 'S', 'T', 'U', 'V', 'W', 'X', 'Y', 'Z']

theorem pyCharUp_cases (c : Char) :
    pyCharUp c = c ∨ pyCharUp c ∈ upperLetters := by
  unfold pyCharUp
  split
  all_goals first
    | (left; rfl)
    | (right; decide)

theorem upperLetters_fixed :
    (upperLetters.all fun d => pyCharUp d = d) = true := by decide

theorem pyCharUp_idem (c : Char) : pyCharUp (pyCharUp c) = pyCharUp c := by
  rcases pyCharUp_cases c with h | h
  · rw [h]; exact h
  · have := List.all_eq_true.mp upperLetters_fixed _ h
    exact of_decide_eq_true this

theorem isPyWs_pyCharUp (c : Char) : isPyWs (pyCharUp c) = isPyWs c := by
  unfold pyCharUp
  split
  all_goals rfl

theorem dropWhile_dropWhile_self {α : Type} (p : α → Bool) :
    ∀ l : List α, (l.dropWhile p).dropWhile p = l.dropWhile p := by
  intro l
  induction l with
  | nil => rfl
  | cons a t ih =>
    by_cases h : p a
    · simp [List.dropWhile_cons, h, ih]
    · simp [List.dropWhile_cons, h]

theorem dropWhile_head_false {α : Type} {p : α → Bool} :
    ∀ {l : List α} {a : α} {t : List α}, l.dropWhile p = a :: t → p a = false := by
  intro l
  induction l with
  | nil => intro a t h; simp [List.dropWhile] at h
  | cons b r ih =>
    intro a t h
    rw [List.dropWhile_cons] at h
    split at h
    · exact ih h
    · injection h with h1 h2
      subst h1
      simp_all

theorem dropWhile_stripChars (l : List Char) :
    (stripChars l).dropWhile isPyWs = stripChars l := by
  unfold stripChars
  have hsuf : (l.dropWhile isPyWs).reverse.dropWhile isPyWs <:+
      (l.dropWhile isPyWs).reverse := List.dropWhile_suffix _
  have hpre : ((l.dropWhile isPyWs).reverse.dropWhile isPyWs).reverse <+:
      l.dropWhile isPyWs := by
    rw [← List.reverse_suffix]
    simpa using hsuf
  rcases hpre with ⟨tail, htail⟩
  cases hRr : ((l.dropWhile isPyWs).reverse.dropWhile isPyWs).reverse with
  | nil => simp [hRr]
  | cons a t =>
    rw [hRr] at htail
    have hd : l.dropWhile isPyWs = a :: (t ++ tail) := by
      rw [← htail]
      rfl
    have ha : isPyWs a = false := dropWhile_head_false hd
    rw [List.dropWhile_cons, ha]
    simp

theorem stripChars_idem (l : List Char) :
    stripChars (stripChars l) = stripChars l := by
  have h1 : stripChars (stripChars l) =
      (((stripChars l).dropWhile isPyWs).reverse.dropWhile isPyWs).reverse := rfl
  rw [h1, dropWhile_stripChars]
  have h2 : (stripChars l).reverse.dropWhile isPyWs = (stripChars l).reverse := by
    unfold stripChars
    rw [List.reverse_reverse]
    exact dropWhile_dropWhile_self _ _
  rw [h2, List.reverse_reverse]

theorem stripChars_map_up (l : List Char) :
    stripChars (l.map pyCharUp) = (stripChars l).map pyCharUp := by
  have hp : (isPyWs ∘ pyCharUp) = isPyWs := funext isPyWs_pyCharUp
  unfold stripChars
  rw [List.dropWhile_map, hp, ← List.map_reverse, List.dropWhile_map, hp,
    ← List.map_reverse]

theorem map_pyCharUp_idem (l : List Char) :
    (l.map pyCharUp).map pyCharUp = l.map pyCharUp := by
  induction l with
  | nil => rfl
  | cons a t ih => simp [pyCharUp_idem, ih]

theorem stripChars_of_nows {l : List Char} (h : ∀ c ∈ l, isPyWs c = false) :
    stripChars l = l := by
  have h1 : ∀ m : List Char, (∀ c ∈ m, isPyWs c = false) →
      m.dropWhile isPyWs = m := by
    intro m hm
    cases m with
    | nil => rfl
    | cons a t =>
      rw [List.dropWhile_cons, hm a (by simp)]
      simp
  unfold stripChars
  rw [h1 l h, h1 _ (by intro c hc; exact h c (List.mem_reverse.mp hc)),
    List.reverse_reverse]

theorem pyStrip_idem (s : String) : pyStrip (pyStrip s) = pyStrip s := by
  show String.mk (stripChars (stripChars s.data)) = String.mk (stripChars s.data)
  rw [stripChars_idem]

theorem pyStrip_pyUpper (s : String) :
    pyStrip (pyUpper s) = pyUpper (pyStrip s) := by
  show String.mk (stripChars (s.data.map pyCharUp)) =
    String.mk ((stripChars s.data).map pyCharUp)
  rw [stripChars_map_up]

theorem pyUpper_idem (s : String) : pyUpper (pyUpper s) = pyUpper s := by
  show String.mk ((s.data.map pyCharUp).map pyCharUp) = String.mk (s.data.map pyCharUp)
  rw [map_pyCharUp_idem]

theorem pyStrip_of_nows {s : String} (h : ∀ c ∈ s.data, isPyWs c = false) :
    pyStrip s = s := by
  show String.mk (stripChars s.data) = s
  rw [stripChars_of_nows h]

/-! ## Digit and date lemmas -/

theorem digitChar_isDigit (n : Nat) : (digitChar n).isDigit = true := by
  unfold digitChar
  split
  all_goals decide

theorem digitChar_toNat (n : Nat) : (digitChar n).toNat - 48 = n % 10 := by
  unfold digitChar
  split
  all_goals simp_all
  all_goals omega

theorem isPyWs_digitChar (n : Nat) : isPyWs (digitChar n) = false := by
  unfold digitChar
  split
  all_goals decide

theorem natOfDigits_pad4 (y : Nat) (h : y ≤ 9999) : natOfDigits (pad4 y) = y := by
  simp only [natOfDigits, pad4, List.foldl]
  rw [digitChar_toNat, digitChar_toNat, digitChar_toNat, digitChar_toNat]
  omega

theorem monthVal2_pad2 (m : Nat) (h1 : 1 ≤ m) (h2 : m ≤ 12) :
    monthVal2 (digitChar (m / 10)) (digitChar m) = some m := by
  interval_cases m
  all_goals rfl

theorem dayVal_pad2 (d : Nat) (h1 : 1 ≤ d) (h2 : d ≤ 31) :
    dayVal (pad2 d) = some d := by
  interval_cases d
  all_goals rfl

theorem mkDate_valid {y m d : Nat} {r : PyDate} (h : mkDate y m d = some r) :
    dateOkB r.year r.month r.day = true := by
  unfold mkDate at h
  split at h
  · cases h
    assumption
  · cases h

theorem parseYMD1_valid {y : Nat} {cs : List Char} {r : PyDate}
    (h : parseYMD1 y cs = some r) : dateOkB r.year r.month r.day = true := by
  unfold parseYMD1 at h
  split at h
  · split at h
    · exact mkDate_valid h
    · cases h
  · cases h

theorem parseYMD_valid {cs : List Char} {r : PyDate}
    (h : parseYMD cs = some r) : dateOkB r.year r.month r.day = true := by
  unfold parseYMD at h
  split at h
  · split at h
    · split at h
      · split at h
        · exact mkDate_valid h
        · exact parseYMD1_valid h
      · exact parseYMD1_valid h
    · cases h
  · cases h

theorem yearTail_valid {d m : Nat} {cs : List Char} {r : PyDate}
    (h : yearTail d m cs = some r) : dateOkB r.year r.month r.day = true := by
  unfold yearTail at h
  split at h
  · split at h
    · exact mkDate_valid h
    · cases h
  · cases h

theorem monthTail1_valid {d : Nat} {cs : List Char} {r : PyDate}
    (h : monthTail1 d cs = some r) : dateOkB r.year r.month r.day = true := by
  unfold monthTail1 at h
  split at h
  · split at h
    · exact yearTail_valid h
    · cases h
  · cases h

theorem monthTail_valid {d : Nat} {cs : List Char} {r : PyDate}
    (h : monthTail d cs = some r) : dateOkB r.year r.month r.day = true := by
  unfold monthTail at h
  split at h
  · split at h
    · exact yearTail_valid h
    · exact monthTail1_valid h
  · exact monthTail1_valid h

theorem parseDMY1_valid {cs : List Char} {r : PyDate}
    (h : parseDMY1 cs = some r) : dateOkB r.year r.month r.day = true := by
  unfold parseDMY1 at h
  split at h
  · split at h
    · exact monthTail_valid h
    · cases h
  · cases h

theorem parseDMY_valid {cs : List Char} {r : PyDate}
    (h : parseDMY cs = some r) : dateOkB r.year r.month r.day = true := by
  unfold parseDMY at h
  split at h
  · split at h
    · exact monthTail_valid h
    · exact parseDMY1_valid h
  · exact parseDMY1_valid h

theorem parseYMD_fmt (dt : PyDate) (h : dateOkB dt.year dt.month dt.day = true) :
    parseYMD (fmtYMDChars dt) = some dt := by
  obtain ⟨y, m, d⟩ := dt
  simp only [dateOkB, Bool.and_eq_true, decide_eq_true_eq] at h
  obtain ⟨⟨⟨⟨⟨h1, h2⟩, h3⟩, h4⟩, h5⟩, h6⟩ := h
  show parseYMD
    (digitChar (y / 1000) :: digitChar (y / 100) :: digitChar (y / 10) ::
      digitChar y :: '-' :: digitChar (m / 10) :: digitChar m :: '-' ::
      digitChar (d / 10) :: digitChar d :: []) = some ⟨y, m, d⟩
  rw [parseYMD]
  simp only [digitChar_isDigit, Bool.and_self, if_true]
  rw [monthVal2_pad2 m h3 h4]
  have hd : dayVal [digitChar (d / 10), digitChar d] = some d := by
    apply dayVal_pad2 d h5
    calc d ≤ daysInMonth y m := h6
    _ ≤ 31 := by
      unfold daysInMonth
      split
      · split
        all_goals omega
      · split
        all_goals omega
  rw [hd]
  have hy : natOfDigits [digitChar (y / 1000), digitChar (y / 100),
      digitChar (y / 10), digitChar y] = y := natOfDigits_pad4 y h2
  rw [hy]
  unfold mkDate
  have hok : dateOkB y m d = true := by
    simp only [dateOkB, Bool.and_eq_true, decide_eq_true_eq]
    exact ⟨⟨⟨⟨⟨h1, h2⟩, h3⟩, h4⟩, h5⟩, h6⟩
  simp [hok]

/-! ## Cleaner lemmas -/

theorem trim_whitespace_idem (v : Value) :
    trim_whitespace (trim_whitespace v) = trim_whitespace v := by
  cases v
  all_goals simp [trim_whitespace]
  exact pyStrip_idem _

theorem nows_fmtYMDChars (dt : PyDate) :
    ∀ c ∈ fmtYMDChars dt, isPyWs c = false := by
  intro c hc
  simp only [fmtYMDChars, pad4, pad2, List.cons_append, List.nil_append,
    List.mem_cons, List.not_mem_nil, or_false] at hc
  rcases hc with h | h | h | h | h | h | h | h | h | h
  all_goals subst h
  all_goals first | exact isPyWs_digitChar _ | decide

theorem fmtYMD_ne_empty (dt : PyDate) : fmtYMD dt ≠ "" := by
  intro h
  have h2 := congrArg String.data h
  simp only [fmtYMD, fmtYMDChars, pad4, pad2, List.cons_append] at h2
  simp at h2

theorem pyStrip_fmtYMD (dt : PyDate) : pyStrip (fmtYMD dt) = fmtYMD dt :=
  pyStrip_of_nows (nows_fmtYMDChars dt)

theorem normalize_date_out (v : Value) :
    normalize_date v = .vNone ∨
      ∃ dt, dateOkB dt.year dt.month dt.day = true ∧
        normalize_date v = .vStr (fmtYMD dt) := by
  unfold normalize_date
  split
  · cases hp : parseYMD (pyStrip (pyStr v)).data with
    | some dt => exact Or.inr ⟨dt, parseYMD_valid hp, by simp [hp]⟩
    | none =>
      cases hq : parseDMY (pyStrip (pyStr v)).data with
      | some dt => exact Or.inr ⟨dt, parseDMY_valid hq, by simp [hp, hq]⟩
      | none => exact Or.inl (by simp [hp, hq])
  · exact Or.inl rfl

theorem normalize_date_idem (v : Value) :
    normalize_date (normalize_date v) = normalize_date v := by
  rcases normalize_date_out v with h | ⟨dt, hok, h⟩
  · rw [h]
    rfl
  · rw [h]
    unfold normalize_date
    have ht : truthy (.vStr (fmtYMD dt)) = true := by
      simp [truthy, fmtYMD_ne_empty]
    rw [ht]
    simp only [pyStr, pyStrip_fmtYMD, if_true]
    have hp : (fmtYMD dt).data = fmtYMDChars dt := rfl
    rw [hp, parseYMD_fmt dt hok]

theorem normalize_currency_out (v : Value) :
    normalize_currency v = .vNone ∨ normalize_currency v = .vStr "IDR" ∨
      normalize_currency v = .vStr "USD" ∨ normalize_currency v = .vStr "SGD" := by
  unfold normalize_currency
  split
  · by_cases h1 : pyUpper (pyStrip (pyStr v)) = "IDR"
    · exact Or.inr (Or.inl (by simp [h1]))
    · by_cases h2 : pyUpper (pyStrip (pyStr v)) = "USD"
      · exact Or.inr (Or.inr (Or.inl (by simp [h2])))
      · by_cases h3 : pyUpper (pyStrip (pyStr v)) = "SGD"
        · exact Or.inr (Or.inr (Or.inr (by simp [h3])))
        · exact Or.inl (by simp [h1, h2, h3])
  · exact Or.inl rfl

theorem normalize_currency_idem (v : Value) :
    normalize_currency (normalize_currency v) = normalize_currency v := by
  rcases normalize_currency_out v with h | h | h | h
  all_goals rw [h]
  all_goals decide

theorem clean_numeric_out (v : Value) :
    clean_numeric v = .vNone ∨ ∃ q, clean_numeric v = .vNum q := by
  unfold clean_numeric
  split
  · exact Or.inl rfl
  · split
    · rename_i q _
      exact Or.inr ⟨q, rfl⟩
    · exact Or.inl rfl

theorem clean_numeric_idem (v : Value) :
    clean_numeric (clean_numeric v) = clean_numeric v := by
  rcases clean_numeric_out v with h | ⟨q, h⟩
  all_goals rw [h]
  · rfl
  · simp [clean_numeric, blankStr, pyFloat]

theorem clean_merchant_category_out (v : Value) :
    clean_merchant_category v = .vStr "Unknown" ∨
      ∃ t, clean_merchant_category v = .vStr t ∧ pyStrip t = t ∧ t ≠ "" := by
  unfold clean_merchant_category
  split
  · exact Or.inl rfl
  · rename_i h
    simp only [Bool.or_eq_true, not_or] at h
    have hne : pyStrip (pyStr v) ≠ "" := by simpa using h.2
    exact Or.inr ⟨pyStrip (pyStr v), rfl, pyStrip_idem _, hne⟩

theorem clean_merchant_category_idem (v : Value) :
    clean_merchant_category (clean_merchant_category v) =
      clean_merchant_category v := by
  rcases clean_merchant_category_out v with h | ⟨t, h, hst, hne⟩
  · rw [h]
    decide
  · rw [h]
    unfold clean_merchant_category
    have ht : truthy (.vStr t) = true := by simp [truthy, hne]
    simp only [pyStr, ht, hst, Bool.not_true, Bool.false_or]
    rw [if_neg]
    simp [hne]

theorem dir_clean_idem {v w : Value}
    (h : (if truthy v then pyUpperV (trim_whitespace v) else Except.ok v) =
      Except.ok w) :
    (if truthy w then pyUpperV (trim_whitespace w) else Except.ok w) =
      Except.ok w := by
  by_cases htv : truthy v = true
  · rw [if_pos htv] at h
    cases v with
    | vStr s =>
      simp only [pyUpperV, trim_whitespace, Except.ok.injEq] at h
      subst h
      by_cases hw : truthy (Value.vStr (pyUpper (pyStrip s))) = true
      · rw [if_pos hw]
        simp only [pyUpperV, trim_whitespace, Except.ok.injEq, Value.vStr.injEq]
        rw [pyStrip_pyUpper, pyStrip_idem, pyUpper_idem]
      · rw [if_neg hw]
    | vNum q => simp [pyUpperV, trim_whitespace] at h
    | vBool b => simp [pyUpperV, trim_whitespace] at h
    | vNone => simp [pyUpperV, trim_whitespace] at h
    | vDate d => simp [pyUpperV, trim_whitespace] at h
  · rw [if_neg htv] at h
    injection h with h
    subst h
    rw [if_neg htv]

theorem cleanField_idem {k : String} {v w : Value}
    (h : cleanField k v = .ok w) : cleanField k w = .ok w := by
  unfold cleanField at h ⊢
  split at h
  · rename_i hc
    rw [if_pos hc]
    injection h with h
    subst h
    rw [trim_whitespace_idem]
  · rename_i hc1
    rw [if_neg hc1]
    split at h
    · rename_i hc
      rw [if_pos hc]
      injection h with h
      subst h
      rw [normalize_date_idem]
    · rename_i hc2
      rw [if_neg hc2]
      split at h
      · rename_i hc
        rw [if_pos hc]
        injection h with h
        subst h
        rw [normalize_currency_idem]
      · rename_i hc3
        rw [if_neg hc3]
        split at h
        · rename_i hc
          rw [if_pos hc]
          injection h with h
          subst h
          rw [clean_numeric_idem]
        · rename_i hc4
          rw [if_neg hc4]
          split at h
          · rename_i hc
            rw [if_pos hc]
            injection h with h
            subst h
            rw [clean_merchant_category_idem]
          · rename_i hc5
            rw [if_neg hc5]
            split at h
            · rename_i hc
              rw [if_pos hc]
              exact dir_clean_idem h
            · rename_i hc6
              rw [if_neg hc6]
              injection h with h
              subst h
              cases v with
              | vStr s => simp [isStr, trim_whitespace, pyStrip_idem]
              | vNum q => simp [isStr]
              | vBool b => simp [isStr]
              | vNone => simp [isStr]
              | vDate d => simp [isStr]

theorem clean_transaction_idem {t u : Record}
    (h : clean_transaction t = .ok u) : clean_transaction u = .ok u := by
  induction t generalizing u with
  | nil =>
    unfold clean_transaction at h
    injection h with h
    subst h
    rfl
  | cons p rest ih =>
    obtain ⟨k, v⟩ := p
    unfold clean_transaction at h
    cases hf : cleanField k v with
    | error e => rw [hf] at h; cases h
    | ok w =>
      rw [hf] at h
      cases hr : clean_transaction rest with
      | error e => rw [hr] at h; cases h
      | ok us =>
        rw [hr] at h
        simp only [Except.ok.injEq] at h
        subst h
        unfold clean_transaction
        rw [cleanField_idem hf, ih hr]

theorem cleanField_total (k : String) (v : Value)
    (hdir : (k = "direction" ∨ k = "account_type") → truthy v = true →
      isStr v = true) :
    ∃ w, cleanField k v = .ok w := by
  unfold cleanField
  split
  · exact ⟨_, rfl⟩
  · split
    · exact ⟨_, rfl⟩
    · split
      · exact ⟨_, rfl⟩
      · split
        · exact ⟨_, rfl⟩
        · split
          · exact ⟨_, rfl⟩
          · split
            · rename_i hc
              simp only [Bool.or_eq_true, decide_eq_true_eq] at hc
              by_cases ht : truthy v = true
              · have hs : isStr v = true := by
                  apply hdir _ ht
                  rcases hc with hc | hc
                  · exact Or.inr hc
                  · exact Or.inl hc
                cases v with
                | vStr s => exact ⟨_, by rw [if_pos ht]; rfl⟩
                | vNum q => simp [isStr] at hs
                | vBool b => simp [isStr] at hs
                | vNone => simp [isStr] at hs
                | vDate d => simp [isStr] at hs
              · exact ⟨v, by rw [if_neg ht]⟩
            · exact ⟨_, rfl⟩

theorem normalize_date_unparseable (v : Value)
    (h1 : parseYMD (pyStrip (pyStr v)).data = none)
    (h2 : parseDMY (pyStrip (pyStr v)).data = none) :
    normalize_date v = .vNone := by
  unfold normalize_date
  split
  · simp [h1, h2]
  · rfl

theorem normalize_currency_invalid (v : Value)
    (h1 : pyUpper (pyStrip (pyStr v)) ≠ "IDR")
    (h2 : pyUpper (pyStrip (pyStr v)) ≠ "USD")
    (h3 : pyUpper (pyStrip (pyStr v)) ≠ "SGD") :
    normalize_currency v = .vNone := by
  unfold normalize_currency
  split
  · simp [h1, h2, h3]
  · rfl

theorem clean_numeric_unparseable (v : Value) (h : pyFloat v = none) :
    clean_numeric v = .vNone := by
  unfold clean_numeric
  split
  · rfl
  · simp [h]

/-! ## Dict lemmas -/

theorem lookup_append_single (t : Record) (k k' : String) (v : Value) :
    List.lookup k' (t ++ [(k, v)]) =
      match List.lookup k' t with
      | some w => some w
      | none => if k' == k then some v else none := by
  induction t with
  | nil =>
    simp only [List.nil_append, List.lookup_cons, List.lookup_nil]
    cases h : k' == k
    all_goals simp [h, List.lookup]
  | cons p rest ih =>
    obtain ⟨kp, vp⟩ := p
    simp only [List.cons_append, List.lookup_cons]
    cases h : k' == kp
    all_goals simp [h, ih]

theorem lookup_cons_self {kk : String} {b : Value} {es : Record} :
    List.lookup kk ((kk, b) :: es) = some b := by
  simp [List.lookup_cons]

theorem lookup_cons_ne {kk kp : String} (b : Value) (es : Record)
    (h : kk ≠ kp) : List.lookup kk ((kp, b) :: es) = List.lookup kk es := by
  simp [List.lookup_cons, beq_eq_false_iff_ne.mpr h]

theorem lookup_map_set_self (t : Record) (k : String) (v : Value) :
    List.lookup k (t.map fun p => if p.1 == k then (k, v) else p) =
      match List.lookup k t with
      | some _ => some v
      | none => none := by
  induction t with
  | nil => rfl
  | cons p rest ih =>
    obtain ⟨kp, vp⟩ := p
    rw [List.map_cons]
    by_cases h : kp = k
    · subst h
      rw [if_pos (beq_self_eq_true _), lookup_cons_self, lookup_cons_self]
    · have hne : k ≠ kp := fun e => h e.symm
      rw [if_neg (by simp [h]), lookup_cons_ne _ _ hne, lookup_cons_ne _ _ hne,
        ih]

theorem lookup_map_set_ne (t : Record) (k k' : String) (v : Value)
    (hne : k' ≠ k) :
    List.lookup k' (t.map fun p => if p.1 == k then (k, v) else p) =
      List.lookup k' t := by
  induction t with
  | nil => rfl
  | cons p rest ih =>
    obtain ⟨kp, vp⟩ := p
    rw [List.map_cons]
    by_cases h : kp = k
    · subst h
      rw [if_pos (beq_self_eq_true _), lookup_cons_ne _ _ hne,
        lookup_cons_ne _ _ hne, ih]
    · rw [if_neg (by simp [h])]
      by_cases hk : k' = kp
      · subst hk
        rw [lookup_cons_self, lookup_cons_self]
      · rw [lookup_cons_ne _ _ hk, lookup_cons_ne _ _ hk, ih]

theorem any_key_eq_lookup (t : Record) (k : String) :
    t.any (fun p => p.1 == k) = (List.lookup k t).isSome := by
  induction t with
  | nil => rfl
  | cons p rest ih =>
    obtain ⟨kp, vp⟩ := p
    rw [List.any_cons]
    by_cases h : kp = k
    · subst h
      rw [lookup_cons_self]
      simp
    · have hne : k ≠ kp := fun e => h e.symm
      rw [lookup_cons_ne _ _ hne]
      have h1 : ((kp, vp).1 == k) = false := beq_eq_false_iff_ne.mpr h
      rw [h1, ih]
      simp

theorem lookup_dict_set_self (t : Record) (k : String) (v : Value) :
    List.lookup k (dict_set t k v) = some v := by
  unfold dict_set
  split
  · rename_i h
    rw [lookup_map_set_self]
    rw [any_key_eq_lookup] at h
    cases hl : List.lookup k t with
    | some w => rfl
    | none =>
      rw [hl] at h
      cases h
  · rename_i h
    rw [lookup_append_single]
    rw [any_key_eq_lookup] at h
    cases hl : List.lookup k t with
    | some w =>
      rw [hl] at h
      simp at h
    | none => simp

theorem lookup_dict_set_ne (t : Record) (k k' : String) (v : Value)
    (hne : k' ≠ k) : List.lookup k' (dict_set t k v) = List.lookup k' t := by
  unfold dict_set
  split
  · exact lookup_map_set_ne t k k' v hne
  · rw [lookup_append_single]
    cases hl : List.lookup k' t with
    | some w => rfl
    | none => simp [beq_eq_false_iff_ne.mpr hne]

theorem lookup_isSome_iff_mem (t : Record) (k : String) :
    (List.lookup k t).isSome = true ↔ k ∈ rkeys t := by
  induction t with
  | nil => simp [rkeys]
  | cons p rest ih =>
    obtain ⟨kp, vp⟩ := p
    by_cases h : k = kp
    · subst h
      rw [lookup_cons_self]
      simp [rkeys]
    · rw [lookup_cons_ne _ _ h]
      simp [rkeys, h, ih]

theorem rkeys_map_set (t : Record) (k : String) (v : Value) :
    rkeys (t.map fun p => if p.1 == k then (k, v) else p) = rkeys t := by
  induction t with
  | nil => rfl
  | cons p rest ih =>
    obtain ⟨kp, vp⟩ := p
    rw [List.map_cons]
    by_cases h : kp = k
    · subst h
      rw [if_pos (beq_self_eq_true _)]
      show kp :: rkeys (List.map _ rest) = kp :: rkeys rest
      rw [ih]
    · rw [if_neg (by simp [h])]
      show kp :: rkeys (List.map _ rest) = kp :: rkeys rest
      rw [ih]

theorem mem_rkeys_dict_set (t : Record) (k k' : String) (v : Value) :
    k' ∈ rkeys (dict_set t k v) ↔ k' ∈ rkeys t ∨ k' = k := by
  unfold dict_set
  split
  · rename_i h
    rw [rkeys_map_set]
    constructor
    · exact Or.inl
    · rintro (hm | rfl)
      · exact hm
      · rw [any_key_eq_lookup] at h
        exact (lookup_isSome_iff_mem t k').mp h
  · show k' ∈ rkeys (t ++ [(k, v)]) ↔ _
    unfold rkeys
    rw [List.map_append]
    simp [rkeys]

/-! ## Validator lemmas -/

theorem dgetD_of_lookup {t : Record} {k : String} {w : Value} (d : Value)
    (h : List.lookup k t = some w) : dgetD t k d = w := by
  simp [dgetD, h]

theorem validate_transaction_id_cases (v : Value) :
    validate_transaction_id v = .ok () ∨
      validate_transaction_id v = .error .invalidTransactionID := by
  unfold validate_transaction_id
  split
  · split
    · exact Or.inr rfl
    · split
      · exact Or.inl rfl
      · exact Or.inr rfl
  · exact Or.inr rfl

theorem validate_date_cases (v : Value) :
    validate_date v = .ok () ∨ validate_date v = .error .invalidDateFormat := by
  unfold validate_date
  split
  · split
    · exact Or.inr rfl
    · split
      · exact Or.inl rfl
      · exact Or.inr rfl
  · exact Or.inr rfl

theorem validate_amount_cases (v : Value) :
    validate_amount v = .ok () ∨ validate_amount v = .error .invalidAmount := by
  unfold validate_amount
  split
  · exact Or.inr rfl
  · split
    · exact Or.inr rfl
    · split
      · exact Or.inr rfl
      · exact Or.inl rfl

theorem validate_currency_cases (v : Value) :
    validate_currency v = .ok () ∨
      validate_currency v = .error .invalidCurrency := by
  unfold validate_currency
  split
  · rename_i s
    split
    · exact Or.inr rfl
    · by_cases h : pyUpper (pyStrip s) = "IDR" ∨ pyUpper (pyStrip s) = "USD" ∨
        pyUpper (pyStrip s) = "SGD"
      · rcases h with h | h | h
        all_goals exact Or.inl (by simp [h])
      · push_neg at h
        exact Or.inr (by simp [h.1, h.2.1, h.2.2])
  · exact Or.inr rfl

theorem validate_amount_ok_elim {v : Value} (h : validate_amount v = .ok ()) :
    ∃ q, pyFloat v = some q ∧ 0 ≤ q := by
  unfold validate_amount at h
  split at h
  · cases h
  · split at h
    · cases h
    · rename_i q hq
      split at h
      · cases h
      · rename_i hlt
        exact ⟨q, hq, le_of_not_lt hlt⟩

theorem validate_amount_ok_lookup {t : Record}
    (h : validate_amount (dgetD t "amount" .vNone) = .ok ()) :
    ∃ va, List.lookup "amount" t = some va := by
  cases hl : List.lookup "amount" t with
  | some va => exact ⟨va, rfl⟩
  | none =>
    rw [dgetD, hl] at h
    exact absurd h (by decide)

theorem validate_transaction_ok_shape {t : Record}
    (h1 : validate_transaction_id (dgetD t "transaction_id" (.vStr "")) = .ok ())
    (h2 : validate_date (dgetD t "transaction_date" (.vStr "")) = .ok ())
    (h3 : validate_amount (dgetD t "amount" .vNone) = .ok ())
    (h4 : validate_currency (dgetD t "currency" (.vStr "")) = .ok ()) :
    ∃ b, validate_transaction t =
        (.ok (dict_set t "amount_anomaly" (.vBool b)),
          dict_set t "amount_anomaly" (.vBool b)) ∧
      check_amount_anomaly (dgetD t "amount" (.vNum 0)) = .ok b := by
  obtain ⟨va, hl⟩ := validate_amount_ok_lookup h3
  rw [dgetD_of_lookup _ hl] at h3
  obtain ⟨q, hq, hq0⟩ := validate_amount_ok_elim h3
  have hget0 : dgetD t "amount" (.vNum 0) = va := dgetD_of_lookup _ hl
  have hchk : check_amount_anomaly (dgetD t "amount" (.vNum 0)) =
      .ok (decide (q > 10000000)) := by
    rw [hget0]
    unfold check_amount_anomaly
    rw [hq]
  refine ⟨decide (q > 10000000), ?_, hchk⟩
  unfold validate_transaction
  rw [h1, h2, dgetD_of_lookup _ hl, h3, h4, hchk]

theorem validate_transaction_err1 {t : Record} {e : PyErr}
    (h : validate_transaction_id (dgetD t "transaction_id" (.vStr "")) =
      .error e) : validate_transaction t = (.error e, t) := by
  unfold validate_transaction
  rw [h]

theorem validate_transaction_err2 {t : Record} {e : PyErr}
    (h1 : validate_transaction_id (dgetD t "transaction_id" (.vStr "")) = .ok ())
    (h : validate_date (dgetD t "transaction_date" (.vStr "")) = .error e) :
    validate_transaction t = (.error e, t) := by
  unfold validate_transaction
  rw [h1, h]

theorem validate_transaction_err3 {t : Record} {e : PyErr}
    (h1 : validate_transaction_id (dgetD t "transaction_id" (.vStr "")) = .ok ())
    (h2 : validate_date (dgetD t "transaction_date" (.vStr "")) = .ok ())
    (h : validate_amount (dgetD t "amount" .vNone) = .error e) :
    validate_transaction t = (.error e, t) := by
  unfold validate_transaction
  rw [h1, h2, h]

theorem validate_transaction_err4 {t : Record} {e : PyErr}
    (h1 : validate_transaction_id (dgetD t "transaction_id" (.vStr "")) = .ok ())
    (h2 : validate_date (dgetD t "transaction_date" (.vStr "")) = .ok ())
    (h3 : validate_amount (dgetD t "amount" .vNone) = .ok ())
    (h : validate_currency (dgetD t "currency" (.vStr "")) = .error e) :
    validate_transaction t = (.error e, t) := by
  unfold validate_transaction
  rw [h1, h2, h3, h]

theorem validate_transaction_id_ok_of {s : String}
    (h : txnIdMatch (pyStrip s) = true) :
    validate_transaction_id (.vStr s) = .ok () := by
  have hs : s ≠ "" := by
    intro e
    subst e
    exact absurd h (by decide)
  unfold validate_transaction_id
  simp [hs, h]

theorem validate_date_ok_of {s : String}
    (h : (parseYMD (pyStrip s).data).isSome = true ∨
      (parseDMY (pyStrip s).data).isSome = true) :
    validate_date (.vStr s) = .ok () := by
  have hs : s ≠ "" := by
    intro e
    subst e
    rcases h with h | h
    all_goals exact absurd h (by decide)
  unfold validate_date
  rcases h with h | h
  all_goals simp [hs, h]

theorem validate_amount_ok_of {va : Value} {q : ℚ} (hne : va ≠ .vNone)
    (hnb : blankStr va = false) (hq : pyFloat va = some q) (h0 : 0 ≤ q) :
    validate_amount va = .ok () := by
  have h0' : ¬(q < 0) := not_lt.mpr h0
  unfold validate_amount
  simp [hne, hnb, hq, h0']

theorem validate_currency_ok_of {s : String}
    (h : pyUpper (pyStrip s) = "IDR" ∨ pyUpper (pyStrip s) = "USD" ∨
      pyUpper (pyStrip s) = "SGD") :
    validate_currency (.vStr s) = .ok () := by
  have hs : s ≠ "" := by
    intro e
    subst e
    rcases h with h | h | h
    all_goals exact absurd h (by decide)
  unfold validate_currency
  rcases h with h | h | h
  all_goals simp [hs, h]

theorem cleanField_null_props {k : String} {v w : Value}
    (h : cleanField k v = .ok w) :
    ((k = "transaction_date" ∨ k = "value_date") →
      parseYMD (pyStrip (pyStr v)).data = none →
      parseDMY (pyStrip (pyStr v)).data = none → w = .vNone) ∧
    (k = "currency" → pyUpper (pyStrip (pyStr v)) ≠ "IDR" →
      pyUpper (pyStrip (pyStr v)) ≠ "USD" →
      pyUpper (pyStrip (pyStr v)) ≠ "SGD" → w = .vNone) ∧
    ((k = "amount" ∨ k = "risk_score") → pyFloat v = none → w = .vNone) := by
  refine ⟨?_, ?_, ?_⟩
  · intro hk hp1 hp2
    have hv : w = normalize_date v := by
      rcases hk with rfl | rfl
      · rw [show cleanField "transaction_date" v = .ok (normalize_date v)
          from rfl] at h
        injection h with h
        exact h.symm
      · rw [show cleanField "value_date" v = .ok (normalize_date v)
          from rfl] at h
        injection h with h
        exact h.symm
    rw [hv]
    exact normalize_date_unparseable v hp1 hp2
  · intro hk hc1 hc2 hc3
    subst hk
    rw [show cleanField "currency" v = .ok (normalize_currency v) from rfl] at h
    injection h with h
    rw [← h]
    exact normalize_currency_invalid v hc1 hc2 hc3
  · intro hk hf
    have hv : w = clean_numeric v := by
      rcases hk with rfl | rfl
      · rw [show cleanField "amount" v = .ok (clean_numeric v) from rfl] at h
        injection h with h
        exact h.symm
      · rw [show cleanField "risk_score" v = .ok (clean_numeric v)
          from rfl] at h
        injection h with h
        exact h.symm
    rw [hv]
    exact clean_numeric_unparseable v hf

/-! ## Claims -/

/-- C1: for every record whose transaction_id (after trimming) matches
`TXN` plus exactly 7 digits, whose transaction_date parses in one of the
two accepted formats, whose amount is non-empty, parseable and
non-negative, and whose currency (trimmed, uppercased) is one of
IDR/USD/SGD, `validate_transaction` returns without raising and sets
`amount_anomaly` to true iff the raw numeric amount exceeds
10,000,000 strictly. -/
theorem claim_C1 (t : Record) (sid sd sc : String) (va : Value) (q : ℚ)
    (hid : List.lookup "transaction_id" t = some (.vStr sid))
    (hidm : txnIdMatch (pyStrip sid) = true)
    (hdt : List.lookup "transaction_date" t = some (.vStr sd))
    (hdp : (parseYMD (pyStrip sd).data).isSome = true ∨
      (parseDMY (pyStrip sd).data).isSome = true)
    (ha : List.lookup "amount" t = some va)
    (hane : va ≠ .vNone) (hanb : blankStr va = false)
    (haq : pyFloat va = some q) (haq0 : 0 ≤ q)
    (hc : List.lookup "currency" t = some (.vStr sc))
    (hcv : pyUpper (pyStrip sc) = "IDR" ∨ pyUpper (pyStrip sc) = "USD" ∨
      pyUpper (pyStrip sc) = "SGD") :
    validate_transaction t =
      (.ok (dict_set t "amount_anomaly" (.vBool (decide (10000000 < q)))),
        dict_set t "amount_anomaly" (.vBool (decide (10000000 < q)))) ∧
    (List.lookup "amount_anomaly"
        (dict_set t "amount_anomaly" (.vBool (decide (10000000 < q)))) =
      some (.vBool true) ↔ 10000000 < q) := by
  have h1 : validate_transaction_id (dgetD t "transaction_id" (.vStr "")) =
      .ok () := by
    rw [dgetD_of_lookup _ hid]
    exact validate_transaction_id_ok_of hidm
  have h2 : validate_date (dgetD t "transaction_date" (.vStr "")) = .ok () := by
    rw [dgetD_of_lookup _ hdt]
    exact validate_date_ok_of hdp
  have h3 : validate_amount (dgetD t "amount" .vNone) = .ok () := by
    rw [dgetD_of_lookup _ ha]
    exact validate_amount_ok_of hane hanb haq haq0
  have h4 : validate_currency (dgetD t "currency" (.vStr "")) = .ok () := by
    rw [dgetD_of_lookup _ hc]
    exact validate_currency_ok_of hcv
  obtain ⟨b, hsh, hchk⟩ := validate_transaction_ok_shape h1 h2 h3 h4
  have hb : b = decide (10000000 < q) := by
    rw [dgetD_of_lookup _ ha] at hchk
    unfold check_amount_anomaly at hchk
    rw [haq] at hchk
    injection hchk with hchk
    exact hchk.symm
  subst hb
  refine ⟨hsh, ?_⟩
  rw [lookup_dict_set_self]
  simp

/-- Witness for C1 at the concrete record
id TXN0000001, date 21/02/2024, amount "15000000", currency "idr". -/
theorem claim_C1_witness :
    validate_transaction
        [("transaction_id", Value.vStr "TXN0000001"),
          ("transaction_date", Value.vStr "21/02/2024"),
          ("amount", Value.vStr "15000000"),
          ("currency", Value.vStr "idr")] =
      (.ok (dict_set
          [("transaction_id", Value.vStr "TXN0000001"),
            ("transaction_date", Value.vStr "21/02/2024"),
            ("amount", Value.vStr "15000000"),
            ("currency", Value.vStr "idr")] "amount_anomaly"
          (.vBool (decide ((10000000 : ℚ) < 15000000)))),
        dict_set
          [("transaction_id", Value.vStr "TXN0000001"),
            ("transaction_date", Value.vStr "21/02/2024"),
            ("amount", Value.vStr "15000000"),
            ("currency", Value.vStr "idr")] "amount_anomaly"
          (.vBool (decide ((10000000 : ℚ) < 15000000)))) ∧
    (List.lookup "amount_anomaly"
        (dict_set
          [("transaction_id", Value.vStr "TXN0000001"),
            ("transaction_date", Value.vStr "21/02/2024"),
            ("amount", Value.vStr "15000000"),
            ("currency", Value.vStr "idr")] "amount_anomaly"
          (.vBool (decide ((10000000 : ℚ) < 15000000)))) =
      some (.vBool true) ↔ (10000000 : ℚ) < 15000000) :=
  claim_C1 _ "TXN0000001" "21/02/2024" "idr" (Value.vStr "15000000")
    15000000 (by decide) (by decide) (by decide) (by decide) (by decide)
    (by decide) (by decide) (by decide) (by decide) (by decide) (by decide)

/-- C2: when a mandatory field is violated, `validate_transaction`
raises the typed error of the first violated field in the fixed order
transaction_id, transaction_date, amount, currency. -/
theorem claim_C2 (t : Record) :
    (validate_transaction_id (dgetD t "transaction_id" (.vStr "")) ≠ .ok () →
      (validate_transaction t).1 = .error .invalidTransactionID) ∧
    (validate_transaction_id (dgetD t "transaction_id" (.vStr "")) = .ok () →
      validate_date (dgetD t "transaction_date" (.vStr "")) ≠ .ok () →
      (validate_transaction t).1 = .error .invalidDateFormat) ∧
    (validate_transaction_id (dgetD t "transaction_id" (.vStr "")) = .ok () →
      validate_date (dgetD t "transaction_date" (.vStr "")) = .ok () →
      validate_amount (dgetD t "amount" .vNone) ≠ .ok () →
      (validate_transaction t).1 = .error .invalidAmount) ∧
    (validate_transaction_id (dgetD t "transaction_id" (.vStr "")) = .ok () →
      validate_date (dgetD t "transaction_date" (.vStr "")) = .ok () →
      validate_amount (dgetD t "amount" .vNone) = .ok () →
      validate_currency (dgetD t "currency" (.vStr "")) ≠ .ok () →
      (validate_transaction t).1 = .error .invalidCurrency) := by
  refine ⟨?_, ?_, ?_, ?_⟩
  · intro hne
    rcases validate_transaction_id_cases (dgetD t "transaction_id" (.vStr ""))
      with h | h
    · exact absurd h hne
    · rw [validate_transaction_err1 h]
  · intro h1 hne
    rcases validate_date_cases (dgetD t "transaction_date" (.vStr ""))
      with h | h
    · exact absurd h hne
    · rw [validate_transaction_err2 h1 h]
  · intro h1 h2 hne
    rcases validate_amount_cases (dgetD t "amount" .vNone) with h | h
    · exact absurd h hne
    · rw [validate_transaction_err3 h1 h2 h]
  · intro h1 h2 h3 hne
    rcases validate_currency_cases (dgetD t "currency" (.vStr "")) with h | h
    · exact absurd h hne
    · rw [validate_transaction_err4 h1 h2 h3 h]

/-- Witness for C2: id and date valid, amount missing, so the amount
error is raised. -/
theorem claim_C2_witness :
    (validate_transaction
        [("transaction_id", Value.vStr "TXN0000001"),
          ("transaction_date", Value.vStr "2024-02-21")]).1 =
      .error .invalidAmount :=
  (claim_C2 _).2.2.1 (by decide) (by decide) (by decide)

/-- C3: whenever `validate_transaction` raises, the caller-visible
record is unchanged; in particular no `amount_anomaly` flag has been
attached to a record that did not already carry one. -/
theorem claim_C3 (t : Record) (e : PyErr)
    (h : (validate_transaction t).1 = .error e) :
    (validate_transaction t).2 = t ∧
    (List.lookup "amount_anomaly" t = none →
      List.lookup "amount_anomaly" (validate_transaction t).2 = none) := by
  rcases validate_transaction_id_cases (dgetD t "transaction_id" (.vStr ""))
    with h1 | h1
  case inr =>
    rw [validate_transaction_err1 h1]
    exact ⟨rfl, fun hn => hn⟩
  rcases validate_date_cases (dgetD t "transaction_date" (.vStr ""))
    with h2 | h2
  case inr =>
    rw [validate_transaction_err2 h1 h2]
    exact ⟨rfl, fun hn => hn⟩
  rcases validate_amount_cases (dgetD t "amount" .vNone) with h3 | h3
  case inr =>
    rw [validate_transaction_err3 h1 h2 h3]
    exact ⟨rfl, fun hn => hn⟩
  rcases validate_currency_cases (dgetD t "currency" (.vStr "")) with h4 | h4
  case inr =>
    rw [validate_transaction_err4 h1 h2 h3 h4]
    exact ⟨rfl, fun hn => hn⟩
  obtain ⟨b, hsh, _⟩ := validate_transaction_ok_shape h1 h2 h3 h4
  rw [hsh] at h
  exact absurd h (by simp)

/-- Witness for C3: the empty record fails id validation and is
returned to the caller unchanged, with no anomaly flag. -/
theorem claim_C3_witness :
    (validate_transaction []).2 = [] ∧
    (List.lookup "amount_anomaly" ([] : Record) = none →
      List.lookup "amount_anomaly" (validate_transaction []).2 = none) :=
  claim_C3 [] .invalidTransactionID (by decide)

/-- C9: a record whose mandatory fields validate but whose direction or
account_type is outside its enumeration is not rejected:
`validate_transaction` succeeds and both values reach the caller
unchanged. -/
theorem claim_C9 (t : Record) (sid sd sc : String) (va : Value) (q : ℚ)
    (hid : List.lookup "transaction_id" t = some (.vStr sid))
    (hidm : txnIdMatch (pyStrip sid) = true)
    (hdt : List.lookup "transaction_date" t = some (.vStr sd))
    (hdp : (parseYMD (pyStrip sd).data).isSome = true ∨
      (parseDMY (pyStrip sd).data).isSome = true)
    (ha : List.lookup "amount" t = some va)
    (hane : va ≠ .vNone) (hanb : blankStr va = false)
    (haq : pyFloat va = some q) (haq0 : 0 ≤ q)
    (hc : List.lookup "currency" t = some (.vStr sc))
    (hcv : pyUpper (pyStrip sc) = "IDR" ∨ pyUpper (pyStrip sc) = "USD" ∨
      pyUpper (pyStrip sc) = "SGD")
    (hbad : validate_direction (dgetD t "direction" (.vStr "")) = false ∨
      validate_account_type (dgetD t "account_type" (.vStr "")) = false) :
    (∃ u, (validate_transaction t).1 = .ok u) ∧
    List.lookup "direction" (validate_transaction t).2 =
      List.lookup "direction" t ∧
    List.lookup "account_type" (validate_transaction t).2 =
      List.lookup "account_type" t := by
  have h1 : validate_transaction_id (dgetD t "transaction_id" (.vStr "")) =
      .ok () := by
    rw [dgetD_of_lookup _ hid]
    exact validate_transaction_id_ok_of hidm
  have h2 : validate_date (dgetD t "transaction_date" (.vStr "")) = .ok () := by
    rw [dgetD_of_lookup _ hdt]
    exact validate_date_ok_of hdp
  have h3 : validate_amount (dgetD t "amount" .vNone) = .ok () := by
    rw [dgetD_of_lookup _ ha]
    exact validate_amount_ok_of hane hanb haq haq0
  have h4 : validate_currency (dgetD t "currency" (.vStr "")) = .ok () := by
    rw [dgetD_of_lookup _ hc]
    exact validate_currency_ok_of hcv
  obtain ⟨b, hsh, _⟩ := validate_transaction_ok_shape h1 h2 h3 h4
  rw [hsh]
  refine ⟨⟨_, rfl⟩, ?_, ?_⟩
  · exact lookup_dict_set_ne t "amount_anomaly" "direction" _ (by decide)
  · exact lookup_dict_set_ne t "amount_anomaly" "account_type" _ (by decide)

/-- Witness for C9 at a record with direction "SIDEWAYS": validation
succeeds and direction and account_type are unchanged. -/
theorem claim_C9_witness :
    (∃ u, (validate_transaction
        [("transaction_id", Value.vStr "TXN0000001"),
          ("transaction_date", Value.vStr "2024-02-21"),
          ("amount", Value.vStr "100"),
          ("currency", Value.vStr "IDR"),
          ("direction", Value.vStr "SIDEWAYS")]).1 = .ok u) ∧
    List.lookup "direction" (validate_transaction
        [("transaction_id", Value.vStr "TXN0000001"),
          ("transaction_date", Value.vStr "2024-02-21"),
          ("amount", Value.vStr "100"),
          ("currency", Value.vStr "IDR"),
          ("direction", Value.vStr "SIDEWAYS")]).2 =
      List.lookup "direction"
        [("transaction_id", Value.vStr "TXN0000001"),
          ("transaction_date", Value.vStr "2024-02-21"),
          ("amount", Value.vStr "100"),
          ("currency", Value.vStr "IDR"),
          ("direction", Value.vStr "SIDEWAYS")] ∧
    List.lookup "account_type" (validate_transaction
        [("transaction_id", Value.vStr "TXN0000001"),
          ("transaction_date", Value.vStr "2024-02-21"),
          ("amount", Value.vStr "100"),
          ("currency", Value.vStr "IDR"),
          ("direction", Value.vStr "SIDEWAYS")]).2 =
      List.lookup "account_type"
        [("transaction_id", Value.vStr "TXN0000001"),
          ("transaction_date", Value.vStr "2024-02-21"),
          ("amount", Value.vStr "100"),
          ("currency", Value.vStr "IDR"),
          ("direction", Value.vStr "SIDEWAYS")] :=
  claim_C9 _ "TXN0000001" "2024-02-21" "IDR" (Value.vStr "100") 100
    (by decide) (by decide) (by decide) (by decide) (by decide) (by decide)
    (by decide) (by decide) (by decide) (by decide) (by decide)
    (Or.inl (by decide))

/-- Counterexample to C4 as stated: a record whose direction field holds
a truthy non-string value makes `clean_transaction` raise an
AttributeError (from calling `.upper()` on a non-string), so cleaning is
not total on all records. -/
theorem claim_C4_counterexample :
    clean_transaction [("direction", Value.vNum 5)] =
      .error .attributeError := by decide

/-- C4 (amended): for every record in which any truthy direction or
account_type value is a string, `clean_transaction` succeeds, keeps the
keys, and maps every unparseable date, invalid currency, and unparseable
amount or risk_score value to null. -/
theorem claim_C4 (t : Record)
    (hdir : ∀ p ∈ t, (p.1 = "direction" ∨ p.1 = "account_type") →
      truthy p.2 = true → isStr p.2 = true) :
    ∃ u, clean_transaction t = .ok u ∧ rkeys u = rkeys t ∧
      ∀ i k v, t.get? i = some (k, v) →
        ∃ w, u.get? i = some (k, w) ∧
          (((k = "transaction_date" ∨ k = "value_date") →
            parseYMD (pyStrip (pyStr v)).data = none →
            parseDMY (pyStrip (pyStr v)).data = none → w = .vNone) ∧
          (k = "currency" → pyUpper (pyStrip (pyStr v)) ≠ "IDR" →
            pyUpper (pyStrip (pyStr v)) ≠ "USD" →
            pyUpper (pyStrip (pyStr v)) ≠ "SGD" → w = .vNone) ∧
          ((k = "amount" ∨ k = "risk_score") → pyFloat v = none →
            w = .vNone)) := by
  induction t with
  | nil =>
    refine ⟨[], rfl, rfl, ?_⟩
    intro i k v h
    simp at h
  | cons p rest ih =>
    obtain ⟨k, v⟩ := p
    obtain ⟨w, hw⟩ := cleanField_total k v
      (fun hk ht => hdir (k, v) (List.mem_cons_self _ _) hk ht)
    obtain ⟨u, hu, hku, hprops⟩ := ih
      (fun p hp => hdir p (List.mem_cons_of_mem _ hp))
    refine ⟨(k, w) :: u, ?_, ?_, ?_⟩
    · unfold clean_transaction
      rw [hw, hu]
    · show k :: rkeys u = k :: rkeys rest
      rw [hku]
    · intro i kk vv hg
      cases i with
      | zero =>
        rw [List.get?_cons_zero] at hg
        injection hg with hg
        rw [Prod.mk.injEq] at hg
        obtain ⟨rfl, rfl⟩ := hg
        exact ⟨w, rfl, cleanField_null_props hw⟩
      | succ j =>
        rw [List.get?_cons_succ] at hg
        rw [List.get?_cons_succ]
        exact hprops j kk vv hg

/-- Witness for C4 at a record with an unparseable date, an invalid
currency and an unparseable amount. -/
theorem claim_C4_witness :
    ∃ u, clean_transaction
        [("transaction_date", Value.vStr "garbage"),
          ("currency", Value.vStr "EUR"),
          ("amount", Value.vStr "abc"),
          ("direction", Value.vNone)] = .ok u ∧
      rkeys u = rkeys
        [("transaction_date", Value.vStr "garbage"),
          ("currency", Value.vStr "EUR"),
          ("amount", Value.vStr "abc"),
          ("direction", Value.vNone)] ∧
      ∀ i k v,
        List.get? [("transaction_date", Value.vStr "garbage"),
          ("currency", Value.vStr "EUR"),
          ("amount", Value.vStr "abc"),
          ("direction", Value.vNone)] i = some (k, v) →
        ∃ w, List.get? u i = some (k, w) ∧
          (((k = "transaction_date" ∨ k = "value_date") →
            parseYMD (pyStrip (pyStr v)).data = none →
            parseDMY (pyStrip (pyStr v)).data = none → w = .vNone) ∧
          (k = "currency" → pyUpper (pyStrip (pyStr v)) ≠ "IDR" →
            pyUpper (pyStrip (pyStr v)) ≠ "USD" →
            pyUpper (pyStrip (pyStr v)) ≠ "SGD" → w = .vNone) ∧
          ((k = "amount" ∨ k = "risk_score") → pyFloat v = none →
            w = .vNone)) :=
  claim_C4 _ (by decide)

/-- C5: cleaning is idempotent; a record that cleaning has produced is
left unchanged by cleaning it again. -/
theorem claim_C5 (t u : Record) (h : clean_transaction t = .ok u) :
    clean_transaction u = .ok u :=
  clean_transaction_idem h

/-- Witness for C5: re-cleaning the cleaned form of a concrete raw
record leaves it fixed. -/
theorem claim_C5_witness :
    clean_transaction
        [("amount", Value.vNum 5),
          ("transaction_date", Value.vStr "2024-02-21"),
          ("direction", Value.vStr "DEBIT"),
          ("merchant_category", Value.vStr "Unknown")] =
      .ok [("amount", Value.vNum 5),
          ("transaction_date", Value.vStr "2024-02-21"),
          ("direction", Value.vStr "DEBIT"),
          ("merchant_category", Value.vStr "Unknown")] :=
  claim_C5
    [("amount", Value.vStr " 5 "),
      ("transaction_date", Value.vStr "21/02/2024"),
      ("direction", Value.vStr " debit "),
      ("merchant_category", Value.vStr "  ")] _ (by decide)

/-- C6: an amount is flagged as a large transaction exactly when it is
non-null and strictly above 5,000,000; the boundary value and a null
amount are not flagged. -/
theorem claim_C6 (a : Option ℚ) :
    (is_large_transaction a = true ↔ ∃ q, a = some q ∧ 5000000 < q) ∧
    is_large_transaction (some 5000000) = false ∧
    is_large_transaction none = false := by
  refine ⟨?_, by decide, rfl⟩
  cases a with
  | none => simp [is_large_transaction]
  | some q => simp [is_large_transaction]

/-- Counterexample to C7 as stated: a whitespace-only currency is
truthy, strips to the empty string, and the code flags it as
cross-border, while the claim requires false for it. -/
theorem claim_C7_counterexample :
    ¬ ∀ c : Value, is_crossborder_transaction c =
      (decide (c ≠ Value.vNone) && !(pyUpper (pyStrip (pyStr c)) == "") &&
        !(pyUpper (pyStrip (pyStr c)) == "IDR")) :=
  fun h => absurd (h (.vStr " ")) (by decide)

/-- C7 (amended): `is_crossborder_transaction` is true iff the currency
value is truthy (non-null, non-empty, non-zero) and its string form,
trimmed and uppercased, differs from IDR; a whitespace-only currency is
therefore flagged as cross-border. -/
theorem claim_C7 (c : Value) :
    is_crossborder_transaction c = true ↔
      truthy c = true ∧ pyUpper (pyStrip (pyStr c)) ≠ "IDR" := by
  unfold is_crossborder_transaction
  by_cases h : truthy c = true
  all_goals simp [h]

/-- C8: the derived amount_log is null exactly for a null, zero or
negative amount, and is the (abstract) natural logarithm of the amount
when the amount is strictly positive; no error is possible. -/
theorem claim_C8 (log : ℚ → ℚ) (a : Option ℚ) :
    (calculate_amount_log log a = none ↔
      a = none ∨ ∃ q, a = some q ∧ q ≤ 0) ∧
    ∀ q, a = some q → 0 < q → calculate_amount_log log a = some (log q) := by
  constructor
  · cases a with
    | none => simp [calculate_amount_log]
    | some q =>
      unfold calculate_amount_log
      by_cases h : q ≤ 0
      all_goals simp [h]
  · intro q hq hpos
    subst hq
    show (if q ≤ 0 then none else some (log q)) = some (log q)
    rw [if_neg (not_le.mpr hpos)]

/-- Witness for C8: a strictly positive amount gets its logarithm. -/
theorem claim_C8_witness :
    calculate_amount_log (fun x => x) (some 2) = some 2 :=
  (claim_C8 (fun x => x) (some 2)).2 2 rfl (by norm_num)

/-- Counterexample to C10 as stated: on the empty record the transform
adds seven keys, not only the four derived ones — `transaction_date`,
`amount` and `risk_score` are created (as null) even though absent from
the input. -/
theorem claim_C10_counterexample :
    rkeys (transform_transaction (fun x => x) []) ≠
      rkeys ([] : Record) ++
        ["is_large_transaction", "is_crossborder", "transaction_day",
          "amount_log"] ∧
    rkeys (transform_transaction (fun x => x) []) =
      ["transaction_date", "amount", "risk_score", "is_large_transaction",
        "is_crossborder", "transaction_day", "amount_log"] := by decide

/-- C10 (amended): `transform_transaction` keeps every input key, leaves
every field other than transaction_date, amount, risk_score and the four
derived keys unchanged, and its key set is the input keys together with
transaction_date, amount, risk_score and the four derived keys (so
exactly the four derived keys are added when the input already has the
other three and none of the derived ones). -/
theorem claim_C10 (log : ℚ → ℚ) (t : Record) :
    (∀ k, k ≠ "transaction_date" → k ≠ "amount" → k ≠ "risk_score" →
      k ≠ "is_large_transaction" → k ≠ "is_crossborder" →
      k ≠ "transaction_day" → k ≠ "amount_log" →
      List.lookup k (transform_transaction log t) = List.lookup k t) ∧
    (∀ k, k ∈ rkeys t → k ∈ rkeys (transform_transaction log t)) ∧
    (∀ k, k ∈ rkeys (transform_transaction log t) ↔
      k ∈ rkeys t ∨ k = "transaction_date" ∨ k = "amount" ∨
      k = "risk_score" ∨ k = "is_large_transaction" ∨
      k = "is_crossborder" ∨ k = "transaction_day" ∨ k = "amount_log") := by
  have hmem : ∀ k, k ∈ rkeys (transform_transaction log t) ↔
      k ∈ rkeys t ∨ k = "transaction_date" ∨ k = "amount" ∨
      k = "risk_score" ∨ k = "is_large_transaction" ∨
      k = "is_crossborder" ∨ k = "transaction_day" ∨ k = "amount_log" := by
    intro k
    unfold transform_transaction
    simp only [mem_rkeys_dict_set]
    tauto
  refine ⟨?_, fun k hk => (hmem k).mpr (Or.inl hk), hmem⟩
  intro k h1 h2 h3 h4 h5 h6 h7
  unfold transform_transaction
  rw [lookup_dict_set_ne _ _ _ _ h7, lookup_dict_set_ne _ _ _ _ h6,
    lookup_dict_set_ne _ _ _ _ h5, lookup_dict_set_ne _ _ _ _ h4,
    lookup_dict_set_ne _ _ _ _ h3, lookup_dict_set_ne _ _ _ _ h2,
    lookup_dict_set_ne _ _ _ _ h1]

/-- Witness for C10: a passthrough field of a concrete record survives
the transform unchanged. -/
theorem claim_C10_witness :
    List.lookup "customer_id" (transform_transaction (fun x => x)
      [("customer_id", Value.vStr "C1")]) = some (Value.vStr "C1") := by
  rw [(claim_C10 (fun x => x) [("customer_id", Value.vStr "C1")]).1
    "customer_id" (by decide) (by decide) (by decide) (by decide) (by decide)
    (by decide) (by decide)]
  decide
